import Mathlib

/-!
# Verification of the Hyatlas launcher AV-scan wrapper

A shallow embedding of `scripts/av_scan.sh`, the antivirus decision
wrapper of the Hyatlas launcher, together with theorems settling the
specification claims about it.

The script runs under `set -euo pipefail`, which has two consequences the
embedding must reflect faithfully:

* referencing `"$1"` when no positional argument was supplied makes bash
  abort with an "unbound variable" error and exit status 1, before any
  line of the script body runs;
* a simple command that exits with a nonzero status (here `clamscan`,
  or the `powershell.exe` launch command on the Windows branch)
  terminates the whole script immediately with that same status, so the
  `EXIT_CODE=$?` line and the `if/elif/else` mapping that follows the
  `clamscan` call only ever execute when the scanner returned 0.
-/

namespace AvScan

/-- The host environment of a single invocation of `av_scan.sh`.

* `argv1` — the first positional parameter `"$1"`; `none` means the
  script was invoked with no argument at all.
* `isRegularFile p` — the result of the bash test `[[ -f p ]]`.
* `uname` — the output of `uname -s`, the host OS identifier.
* `clamscanOnPath` — whether `command -v clamscan` succeeds.
* `clamscanExit p` — the exit status of `clamscan --no-summary p`.
* `powershellExit p` — the exit status of the
  `powershell.exe -NoProfile -Command "Start-MpScan -ScanPath p ..."`
  launch command.
* `defenderThreatFound` — whether the Defender engine itself flags a
  threat (what `Get-MpThreatDetection` would report).  The script never
  reads this — the field exists so that theorems can state that the
  outcome is independent of the engine's own verdict.

Exit statuses delivered by the operating system are values in `0 … 255`;
the fields are `Nat` and theorems that need the bound take it as a
hypothesis. -/
structure Env where
  argv1 : Option String
  isRegularFile : String → Bool
  uname : String
  clamscanOnPath : Bool
  clamscanExit : String → Nat
  powershellExit : String → Nat
  defenderThreatFound : Bool

/-- The observable outcome of one invocation: the process exit code and
the diagnostic lines the script itself writes to stderr (child
processes may write their own stderr; that is not the wrapper's). -/
structure Result where
  exitCode : Nat
  stderr : List String
deriving DecidableEq, Repr

/-- The platform classification of `av_scan.sh`: the script body is a
sequence of guarded blocks, each of which exits, so the host OS
identifier selects exactly one of three branches. -/
inductive Branch where
  | posix
  | windows
  | unsupported
deriving DecidableEq, Repr

/-- Bash prefix glob matching, `[[ s == pre* ]]`: does `pre` occur as a
prefix of `s`?  Stated on the character lists of the strings so that it
is structurally recursive and evaluates inside the kernel. -/
def hasPrefix (pre s : String) : Bool :=
  pre.data.isPrefixOf s.data

/-- Does the OS identifier take the POSIX branch?
Embeds `[[ "${OS}" == "Linux" || "${OS}" == "Darwin" ]]` (line 111). -/
def isPosixOS (os : String) : Bool :=
  os == "Linux" || os == "Darwin"

/-- Does the OS identifier match the Windows-family patterns?
Embeds `[[ "${OS}" == "MINGW"* || "${OS}" == "CYGWIN"* || "${OS}" == "MSYS"* ]]`
(line 133). -/
def isWindowsOS (os : String) : Bool :=
  hasPrefix "MINGW" os || hasPrefix "CYGWIN" os || hasPrefix "MSYS" os

/-- Platform dispatch, resolved once from `uname -s`: the POSIX guard is
tested first, then the Windows guard, and everything else falls through
to the unsupported tail of the script. -/
def dispatch (os : String) : Branch :=
  if isPosixOS os then .posix
  else if isWindowsOS os then .windows
  else .unsupported

/-- The `if/elif/else` mapping on `EXIT_CODE` (lines 121–127 of
`av_scan.sh`): 0 → clean (exit 0), 1 → virus found (exit 1), anything
else → error (exit 2).  Under `set -e` this mapping is only ever reached
with `EXIT_CODE = 0`; see `av_scan`. -/
def clamscanMapping (exitCode : Nat) : Nat :=
  if exitCode = 0 then 0
  else if exitCode = 1 then 1
  else 2

/-- The stderr line for an invalid path (line 102). -/
def invalidPathMsg (archive : String) : String :=
  "[av_scan] invalid path: " ++ archive

/-- The stderr line of the permissive fallback (line 113). -/
def scannerMissingMsg : String :=
  "[av_scan] clamscan not found – skipping scan"

/-- The stderr line of the unsupported-OS tail (line 144). -/
def unsupportedOSMsg (os : String) : String :=
  "[av_scan] unsupported OS: " ++ os

/-- The diagnostic bash itself prints when `set -u` aborts on the
unset `$1`; it is bash's message, not an `echo` of the script. -/
def unboundVariableMsg : String :=
  "av_scan.sh: line 17: $1: unbound variable"

/-- Shallow embedding of `scripts/av_scan.sh` under `set -euo pipefail`.

Control flow of the script:
1. `ARCHIVE="$1"` — with no argument, `set -u` aborts the shell with an
   "unbound variable" error; bash exits with status 1.
2. `[[ -z "${ARCHIVE}" || ! -f "${ARCHIVE}" ]]` — an empty or
   non-regular-file path prints a diagnostic and exits 2.
3. POSIX branch (`Linux`/`Darwin`): without `clamscan` on the search
   path, print a diagnostic and exit 0 (permissive fallback); with it,
   run `clamscan --no-summary`.  A nonzero scanner status terminates the
   script with that status via `set -e`; only status 0 reaches the
   `EXIT_CODE` mapping, which then exits 0.
4. Windows branch (`MINGW*`/`CYGWIN*`/`MSYS*`): launch the Defender
   scan via `powershell.exe`.  A nonzero launch status terminates the
   script with that status via `set -e`; otherwise exit 0 without
   inspecting the engine's verdict.
5. Anything else: print the OS identifier and exit 2. -/
def av_scan (env : Env) : Result :=
  match env.argv1 with
  | none =>
      { exitCode := 1, stderr := [unboundVariableMsg] }
  | some archive =>
      if archive == "" || !(env.isRegularFile archive) then
        { exitCode := 2, stderr := [invalidPathMsg archive] }
      else
        match dispatch env.uname with
        | .posix =>
            if !env.clamscanOnPath then
              { exitCode := 0, stderr := [scannerMissingMsg] }
            else
              let e := env.clamscanExit archive
              if e ≠ 0 then
                { exitCode := e, stderr := [] }
              else
                { exitCode := clamscanMapping e, stderr := [] }
        | .windows =>
            let p := env.powershellExit archive
            if p ≠ 0 then
              { exitCode := p, stderr := [] }
            else
              { exitCode := 0, stderr := [] }
        | .unsupported =>
            { exitCode := 2, stderr := [unsupportedOSMsg env.uname] }

/-! ## Concrete host environments used as failing inputs and witnesses -/

/-- Linux host, valid archive, `clamscan` on the path, scanner exit
status 3 (a status outside the scanner's documented `0/1/2` contract,
e.g. the one bash reports when the scanner is killed becomes 128+sig). -/
def envLinuxScanner3 : Env :=
  ⟨some "/tmp/archive.zip", fun p => p == "/tmp/archive.zip", "Linux",
    true, fun _ => 3, fun _ => 0, false⟩

/-- An invocation with no positional argument at all. -/
def envNoArg : Env :=
  ⟨none, fun _ => false, "Linux", false, fun _ => 0, fun _ => 0, false⟩

/-- Darwin host, valid archive, scanner present, scanner exit 200. -/
def envDarwinScanner200 : Env :=
  ⟨some "/a.zip", fun p => p == "/a.zip", "Darwin",
    true, fun _ => 200, fun _ => 0, false⟩

/-- Windows (MINGW) host, valid archive, the `powershell.exe` launch
command itself fails with status 127 (command not found). -/
def envMingwPowershell127 : Env :=
  ⟨some "/b.zip", fun p => p == "/b.zip", "MINGW64_NT-10.0",
    true, fun _ => 0, fun _ => 127, false⟩

/-- Darwin host, valid archive, no scanner on the search path. -/
def envDarwinNoScanner : Env :=
  ⟨some "/game.zip", fun p => p == "/game.zip", "Darwin",
    false, fun _ => 0, fun _ => 0, false⟩

/-- Linux host, valid archive, no scanner on the search path. -/
def envLinuxNoScanner : Env :=
  ⟨some "/pack.zip", fun p => p == "/pack.zip", "Linux",
    false, fun _ => 0, fun _ => 0, false⟩

/-- MSYS host, valid archive, launch command succeeds — while the
Defender engine itself does flag a threat. -/
def envMsysLaunchOk : Env :=
  ⟨some "/mod.zip", fun p => p == "/mod.zip", "MSYS_NT-10.0",
    false, fun _ => 0, fun _ => 0, true⟩

/-- SunOS host (neither POSIX family nor Windows family), valid archive. -/
def envSunOS : Env :=
  ⟨some "/x.zip", fun p => p == "/x.zip", "SunOS",
    true, fun _ => 0, fun _ => 0, false⟩

/-- First of two observably identical invocations. -/
def envRepeatA : Env :=
  ⟨some "/c.zip", fun p => p == "/c.zip", "Linux",
    true, fun _ => 0, fun _ => 0, false⟩

/-- Second invocation: agrees with `envRepeatA` on everything
`av_scan` can observe for `/c.zip`, but differs on other paths. -/
def envRepeatB : Env :=
  ⟨some "/c.zip", fun p => p == "/c.zip" || p == "/other", "Linux",
    true, fun _ => 0, fun _ => 0, true⟩

/-! ## Helper lemmas -/

/-- The POSIX guard and the Windows guard are disjoint: `Linux` and
`Darwin` do not carry any of the prefixes `MINGW`, `CYGWIN`, `MSYS`. -/
theorem posix_not_windows (os : String) (h : isPosixOS os = true) :
    isWindowsOS os = false := by
  have hos : os = "Linux" ∨ os = "Darwin" := by
    simpa [isPosixOS] using h
  rcases hos with h1 | h1 <;> subst h1 <;> decide

/-- Conversely, an identifier matching a Windows prefix is not a POSIX
identifier. -/
theorem windows_not_posix (os : String) (h : isWindowsOS os = true) :
    isPosixOS os = false := by
  rcases Bool.eq_false_or_eq_true (isPosixOS os) with ht | hf
  · exact absurd h (by simp [posix_not_windows os ht])
  · exact hf

/-! ## Claim theorems -/

/-- C1: the claim states that on a POSIX host with a scanner present,
every scanner exit status other than 0 and 1 yields wrapper exit 2.
The code violates this: under `set -e` the `clamscan` call itself
terminates the script with the scanner's own status before the
`EXIT_CODE` mapping runs, so scanner status 3 makes the wrapper exit 3,
not 2.  This theorem evaluates the wrapper at that failing input. -/
theorem c1_scanner_exit3_passes_through :
    (av_scan envLinuxScanner3).exitCode = 3 ∧
      (av_scan envLinuxScanner3).exitCode ≠ 2 := by
  decide

/-- C2: the claim states that a missing path argument yields exit 2
with a wrapper diagnostic, before any platform dispatch.  The code
violates this for the missing-argument case: `set -u` aborts bash on
the unset `$1` with an unbound-variable error and exit status 1, so the
`-z` validation never runs.  This theorem evaluates the wrapper at that
failing input. -/
theorem c2_missing_argument_exits_one :
    (av_scan envNoArg).exitCode = 1 ∧
      (av_scan envNoArg).exitCode ≠ 2 := by
  decide

/-- C3: on a POSIX host (`uname` Linux or Darwin) with no `clamscan` on
the search path, every existing, non-empty-named regular input file
yields exit 0 — the permissive fallback. -/
theorem c3_posix_no_scanner_is_clean (env : Env) (archive : String)
    (harg : env.argv1 = some archive)
    (hne : archive ≠ "")
    (hfile : env.isRegularFile archive = true)
    (hos : env.uname = "Linux" ∨ env.uname = "Darwin")
    (hcl : env.clamscanOnPath = false) :
    (av_scan env).exitCode = 0 := by
  have hp : isPosixOS env.uname = true := by
    rcases hos with h | h <;> simp [isPosixOS, h]
  simp [av_scan, harg, hne, hfile, dispatch, hp, hcl]

/-- Witness for C3: a Darwin host with no scanner and an existing
archive `/game.zip` exits 0. -/
theorem c3_posix_no_scanner_is_clean_witness :
    (av_scan envDarwinNoScanner).exitCode = 0 :=
  c3_posix_no_scanner_is_clean envDarwinNoScanner "/game.zip"
    rfl (by decide) (by decide) (Or.inr rfl) rfl

/-- C6: the claim states the wrapper always terminates with an exit
code in {0, 1, 2}.  The code violates this: on a Darwin host with the
scanner present, scanner exit status 200 propagates unchanged through
`set -e`, so the wrapper exits 200.  This theorem evaluates the wrapper
at that failing input. -/
theorem c6_exit_code_escapes_triple :
    (av_scan envDarwinScanner200).exitCode = 200 ∧
      ¬((av_scan envDarwinScanner200).exitCode = 0 ∨
        (av_scan envDarwinScanner200).exitCode = 1 ∨
        (av_scan envDarwinScanner200).exitCode = 2) := by
  decide

/-- C7: the claim states a scanner-invocation failure propagates as
exit 2 with a diagnostic line on the error stream.  The code violates
this: on a MINGW host, when the `powershell.exe` launch command fails
with status 127, `set -e` terminates the wrapper with 127, and the
wrapper writes no diagnostic of its own.  This theorem evaluates the
wrapper at that failing input. -/
theorem c7_launch_failure_is_not_exit2 :
    (av_scan envMingwPowershell127).exitCode = 127 ∧
      (av_scan envMingwPowershell127).exitCode ≠ 2 ∧
      (av_scan envMingwPowershell127).stderr = [] := by
  decide

/-- The dispatcher selects the POSIX branch exactly on the POSIX guard. -/
theorem dispatch_eq_posix_iff (os : String) :
    dispatch os = Branch.posix ↔ isPosixOS os = true := by
  unfold dispatch
  cases hP : isPosixOS os with
  | false => cases hW : isWindowsOS os <;> simp
  | true => simp

/-- The dispatcher selects the Windows branch exactly on the Windows
guard (the POSIX guard tested before it is disjoint from it). -/
theorem dispatch_eq_windows_iff (os : String) :
    dispatch os = Branch.windows ↔ isWindowsOS os = true := by
  unfold dispatch
  cases hP : isPosixOS os with
  | false => cases hW : isWindowsOS os <;> simp [hW]
  | true =>
      have hw : isWindowsOS os = false := posix_not_windows os hP
      simp [hw]

/-- The dispatcher falls through to the unsupported tail exactly when
both guards fail. -/
theorem dispatch_eq_unsupported_iff (os : String) :
    dispatch os = Branch.unsupported ↔
      (isPosixOS os = false ∧ isWindowsOS os = false) := by
  unfold dispatch
  cases hP : isPosixOS os with
  | false => cases hW : isWindowsOS os <;> simp [hW]
  | true =>
      have hw : isWindowsOS os = false := posix_not_windows os hP
      simp [hw]

/-- `av_scan` never reads the Defender engine's own verdict. -/
theorem av_scan_ignores_defender (env : Env) (b : Bool) :
    av_scan { env with defenderThreatFound := b } = av_scan env :=
  rfl

/-- C4: on a Windows-family host, whenever the `powershell.exe` launch
command completes without error (status 0) on a valid archive, the
wrapper exits 0 — and the outcome is independent of whether the
Defender engine itself flags a threat, since the wrapper never inspects
the engine's detection result. -/
theorem c4_windows_launch_ok_is_clean (env : Env) (archive : String)
    (harg : env.argv1 = some archive)
    (hne : archive ≠ "")
    (hfile : env.isRegularFile archive = true)
    (hos : isWindowsOS env.uname = true)
    (hps : env.powershellExit archive = 0) :
    (av_scan env).exitCode = 0 ∧
      ∀ b : Bool,
        av_scan { env with defenderThreatFound := b } = av_scan env := by
  have hp : isPosixOS env.uname = false := windows_not_posix env.uname hos
  refine ⟨?_, fun b => av_scan_ignores_defender env b⟩
  simp [av_scan, harg, hne, hfile, dispatch, hp, hos, hps]

/-- Witness for C4: an MSYS host whose launch command succeeds exits 0
even though the engine flags a threat (`envMsysLaunchOk` has
`defenderThreatFound = true`). -/
theorem c4_windows_launch_ok_is_clean_witness :
    (av_scan envMsysLaunchOk).exitCode = 0 :=
  (c4_windows_launch_ok_is_clean envMsysLaunchOk "/mod.zip"
    rfl (by decide) (by decide) (by decide) rfl).1

/-- C5: for a host OS identifier outside both the POSIX family and the
Windows family, every invocation with a path argument exits 2 —
regardless of file validity — and when the path is valid the host
identifier is reported in the wrapper's stderr diagnostic. -/
theorem c5_unsupported_os_errors (env : Env) (archive : String)
    (harg : env.argv1 = some archive)
    (hpos : isPosixOS env.uname = false)
    (hwin : isWindowsOS env.uname = false) :
    (av_scan env).exitCode = 2 ∧
      (archive ≠ "" → env.isRegularFile archive = true →
        (av_scan env).stderr = [unsupportedOSMsg env.uname]) := by
  have hd : dispatch env.uname = Branch.unsupported := by
    simp [dispatch, hpos, hwin]
  by_cases hne : archive = ""
  · subst hne
    exact ⟨by simp [av_scan, harg], fun h _ => absurd rfl h⟩
  · by_cases hf : env.isRegularFile archive = true
    · refine ⟨?_, fun _ _ => ?_⟩ <;> simp [av_scan, harg, hne, hf, hd]
    · have hf0 : env.isRegularFile archive = false := by
        simpa using hf
      exact ⟨by simp [av_scan, harg, hne, hf0], fun _ h2 => absurd h2 hf⟩

/-- Witness for C5: a SunOS host with a valid archive exits 2 and
reports the identifier. -/
theorem c5_unsupported_os_errors_witness :
    (av_scan envSunOS).exitCode = 2 ∧
      (av_scan envSunOS).stderr = [unsupportedOSMsg "SunOS"] := by
  have h := c5_unsupported_os_errors envSunOS "/x.zip" rfl
    (by decide) (by decide)
  exact ⟨h.1, h.2 (by decide) (by decide)⟩

/-- C8: platform dispatch is a closed, mutually exclusive three-way
classification of the host OS identifier: exactly `Linux` and `Darwin`
take the POSIX branch, exactly the identifiers carrying one of the
prefixes `MINGW`, `CYGWIN`, `MSYS` take the Windows branch, and every
other identifier takes the unsupported branch.  (`dispatch` being a
function, no identifier reaches more than one branch.) -/
theorem c8_dispatch_classification (os : String) :
    (dispatch os = Branch.posix ↔ (os = "Linux" ∨ os = "Darwin")) ∧
    (dispatch os = Branch.windows ↔
      (hasPrefix "MINGW" os = true ∨ hasPrefix "CYGWIN" os = true ∨
        hasPrefix "MSYS" os = true)) ∧
    (dispatch os = Branch.unsupported ↔
      (¬(os = "Linux" ∨ os = "Darwin") ∧
        ¬(hasPrefix "MINGW" os = true ∨ hasPrefix "CYGWIN" os = true ∨
          hasPrefix "MSYS" os = true))) := by
  have hposix : isPosixOS os = true ↔ (os = "Linux" ∨ os = "Darwin") := by
    simp [isPosixOS]
  have hwin : isWindowsOS os = true ↔
      (hasPrefix "MINGW" os = true ∨ hasPrefix "CYGWIN" os = true ∨
        hasPrefix "MSYS" os = true) := by
    simp [isWindowsOS, or_assoc]
  refine ⟨?_, ?_, ?_⟩
  · rw [dispatch_eq_posix_iff, hposix]
  · rw [dispatch_eq_windows_iff, hwin]
  · rw [dispatch_eq_unsupported_iff,
      ← Bool.not_eq_true (isPosixOS os), ← Bool.not_eq_true (isWindowsOS os),
      hposix, hwin]

/-- Witness for C8, applying the classification at a concrete
identifier of the Windows family. -/
theorem c8_dispatch_classification_witness :
    dispatch "MINGW64_NT-10.0-19045" = Branch.windows :=
  (c8_dispatch_classification "MINGW64_NT-10.0-19045").2.1.mpr
    (Or.inl (by decide))

/-- C9: two invocations that agree on the path argument and on
everything the wrapper can observe for that path — file existence, the
host identifier, scanner availability, and both child exit statuses —
produce the same result; the wrapper holds no hidden state. -/
theorem c9_deterministic (e1 e2 : Env) (archive : String)
    (h1 : e1.argv1 = some archive) (h2 : e2.argv1 = some archive)
    (hfile : e1.isRegularFile archive = e2.isRegularFile archive)
    (huname : e1.uname = e2.uname)
    (hclam : e1.clamscanOnPath = e2.clamscanOnPath)
    (hexit : e1.clamscanExit archive = e2.clamscanExit archive)
    (hps : e1.powershellExit archive = e2.powershellExit archive) :
    av_scan e1 = av_scan e2 := by
  simp only [av_scan, h1, h2, hfile, huname, hclam, hexit, hps]

/-- Witness for C9: two observably identical invocations (whose
environments differ on other paths and on the ignored engine verdict)
yield the same result. -/
theorem c9_deterministic_witness :
    av_scan envRepeatA = av_scan envRepeatB :=
  c9_deterministic envRepeatA envRepeatB "/c.zip"
    rfl rfl (by decide) rfl rfl rfl rfl

/-- C10: a diagnostic on the error stream does not imply failure — on a
POSIX host with no scanner, the wrapper writes the `[av_scan]`-prefixed
skip message to stderr and still exits 0. -/
theorem c10_clean_exit_with_diagnostic (env : Env) (archive : String)
    (harg : env.argv1 = some archive)
    (hne : archive ≠ "")
    (hfile : env.isRegularFile archive = true)
    (hos : env.uname = "Linux" ∨ env.uname = "Darwin")
    (hcl : env.clamscanOnPath = false) :
    (av_scan env).exitCode = 0 ∧
      (av_scan env).stderr = [scannerMissingMsg] ∧
      hasPrefix "[av_scan]" scannerMissingMsg = true := by
  have hp : isPosixOS env.uname = true := by
    rcases hos with h | h <;> simp [isPosixOS, h]
  refine ⟨?_, ?_, by decide⟩ <;>
    simp [av_scan, harg, hne, hfile, dispatch, hp, hcl]

/-- Witness for C10: a Linux host with no scanner and archive
`/pack.zip` exits 0 with the skip diagnostic on stderr. -/
theorem c10_clean_exit_with_diagnostic_witness :
    (av_scan envLinuxNoScanner).exitCode = 0 ∧
      (av_scan envLinuxNoScanner).stderr = [scannerMissingMsg] :=
  have h := c10_clean_exit_with_diagnostic envLinuxNoScanner "/pack.zip"
    rfl (by decide) (by decide) (Or.inl rfl) rfl
  ⟨h.1, h.2.1⟩

end AvScan
